import Mathlib

/-!
Verification development for the Cameroon meningitis surveillance dashboard.

The definitions below are shallow embeddings of the computation functions of
the dashboard (aggregation, forecasting, risk classification, LISA cluster
labelling, export file naming).  Tabular data is modelled as lists of records;
machine floating-point arithmetic is modelled by exact rational arithmetic
(ℚ), except for the one float exponentiation `trend_factor ** dampening`,
which is modelled by the real power `Real.rpow`.  A non-finite float result
(infinity, produced by x / 0 with x nonzero and not removed by `fillna`) is
modelled as `none`.
-/

namespace Meningitis

/-- One row of the surveillance CSV, as loaded by the pages
(columns `region`, `district_clean`, `data_year`, `week_number`,
`cases`, `deaths`, `population`).  Counts are modelled in ℚ because the
pages immediately enter float arithmetic with them. -/
structure SurveillanceRecord where
  region : String
  district : String
  data_year : Int
  week_number : Int
  cases : ℚ
  deaths : ℚ
  population : ℚ
deriving DecidableEq

/-- The year/region filter applied at the top of `compute_kpis`,
`get_temporal_data` and `get_regional_data` in `Check/pages/1_Overview.py`:
`df[(df.data_year.isin(selected_years)) & (df.region.isin(selected_regions))]`. -/
def filterRecords (df : List SurveillanceRecord) (selectedYears : List Int)
    (selectedRegions : List String) : List SurveillanceRecord :=
  df.filter (fun r => decide (r.data_year ∈ selectedYears ∧ r.region ∈ selectedRegions))

/-- `total_cases = int(df_filtered.cases.sum())` in `compute_kpis`. -/
def totalCases (df : List SurveillanceRecord) (selectedYears : List Int)
    (selectedRegions : List String) : ℚ :=
  ((filterRecords df selectedYears selectedRegions).map (fun r => r.cases)).sum

/-- `total_deaths = int(df_filtered.deaths.sum())` in `compute_kpis`. -/
def totalDeaths (df : List SurveillanceRecord) (selectedYears : List Int)
    (selectedRegions : List String) : ℚ :=
  ((filterRecords df selectedYears selectedRegions).map (fun r => r.deaths)).sum

/-- `overall_cfr = (total_deaths / total_cases * 100) if total_cases > 0 else 0`
(`Check/pages/1_Overview.py`, `compute_kpis`). -/
def overall_cfr (df : List SurveillanceRecord) (selectedYears : List Int)
    (selectedRegions : List String) : ℚ :=
  if 0 < totalCases df selectedYears selectedRegions then
    totalDeaths df selectedYears selectedRegions /
      totalCases df selectedYears selectedRegions * 100
  else 0

/-- The rows of one `data_year` group of `get_temporal_data`
(`df_filtered.groupby('data_year')`). -/
def yearRecords (df : List SurveillanceRecord) (selectedYears : List Int)
    (selectedRegions : List String) (y : Int) : List SurveillanceRecord :=
  (filterRecords df selectedYears selectedRegions).filter (fun r => decide (r.data_year = y))

/-- The `cases` sum of one yearly group of `get_temporal_data`. -/
def yearCases (df : List SurveillanceRecord) (selectedYears : List Int)
    (selectedRegions : List String) (y : Int) : ℚ :=
  ((yearRecords df selectedYears selectedRegions y).map (fun r => r.cases)).sum

/-- The `deaths` sum of one yearly group of `get_temporal_data`. -/
def yearDeaths (df : List SurveillanceRecord) (selectedYears : List Int)
    (selectedRegions : List String) (y : Int) : ℚ :=
  ((yearRecords df selectedYears selectedRegions y).map (fun r => r.deaths)).sum

/-- The per-year CFR column of `get_temporal_data`:
`yearly_data.cfr = (deaths / cases * 100).fillna(0)`.
Pandas float semantics: `0 / 0` is NaN and `.fillna(0)` turns it into `0`;
`d / 0` with `d ≠ 0` is a signed infinity, which `.fillna(0)` does NOT
replace.  A non-finite result is modelled as `none`. -/
def yearlyCfr (deathsSum casesSum : ℚ) : Option ℚ :=
  if casesSum = 0 then (if deathsSum = 0 then some 0 else none)
  else some (deathsSum / casesSum * 100)

/-- The CFR value of the row of year `y` in the table produced by
`get_temporal_data` (`Check/pages/1_Overview.py`). -/
def temporalCfrForYear (df : List SurveillanceRecord) (selectedYears : List Int)
    (selectedRegions : List String) (y : Int) : Option ℚ :=
  yearlyCfr (yearDeaths df selectedYears selectedRegions y)
    (yearCases df selectedYears selectedRegions y)

/-- The `cases` sum of the group of region `g` in
`get_regional_data` (`df_filtered.groupby('region').agg(cases sum)`). -/
def regionCases (fl : List SurveillanceRecord) (g : String) : ℚ :=
  ((fl.filter (fun r => decide (r.region = g))).map (fun r => r.cases)).sum

/-- The `(region, total_cases)` pairs produced by `get_regional_data`
(`Check/pages/1_Overview.py`).  The group keys are the distinct regions of
the filtered table; the descending sort applied afterwards permutes the rows
and is irrelevant to sums, as are the extra zero-count rows that pandas adds
for unobserved categorical levels. -/
def regionalData (df : List SurveillanceRecord) (selectedYears : List Int)
    (selectedRegions : List String) : List (String × ℚ) :=
  ((filterRecords df selectedYears selectedRegions).map (fun r => r.region)).dedup.map
    (fun g => (g, regionCases (filterRecords df selectedYears selectedRegions) g))

/-! ## Forecasting layer -/

/-- The `n` most recent observations of a time-ordered history
(`nlargest(n, [data_year, week_number])` on a table with distinct
(year, week) keys keeps the `n` most recent rows; `tail(n)` likewise). -/
def lastN (n : ℕ) (l : List ℚ) : List ℚ := l.drop (l.length - n)

/-- `Series.mean()`: sum divided by length (only ever applied to nonempty
series by the guarded code paths below). -/
def listMean (l : List ℚ) : ℚ := l.sum / l.length

/-- `make_simple_prediction` of `pages/4_Predictions_BILINGUAL.py`:
requires at least 12 observations for the district, averages the most
recent 12, multiplies by a dampened trend factor
(mean of the last 4 over mean of the 8 before them) and floors at 0.
The history is the full time-ordered case series of the district; the float
exponentiation `trend_factor ** dampening` is modelled by `Real.rpow`. -/
noncomputable def make_simple_prediction_bilingual (history : List ℚ)
    (weeks_ahead : ℕ) : Option ℝ :=
  if history.length < 12 then none
  else
    let recent_data := lastN 12 history
    let avg_cases : ℚ := listMean recent_data
    let trend_factor : ℚ :=
      if 12 ≤ recent_data.length then
        if 0 < listMean (recent_data.take 8) then
          listMean (lastN 4 recent_data) / listMean (recent_data.take 8)
        else 1
      else 1
    let dampening : ℝ := max (1 - ((weeks_ahead : ℝ) - 1) * (5 / 100)) (7 / 10)
    some (max 0 ((avg_cases : ℝ) * (trend_factor : ℝ) ^ dampening))

/-- `make_simple_prediction` of `pages/4_🎯_Predictions.py`:
takes the last 12 rows, requires at least 4 of them, predicts the mean of
the last 4 plus half the difference between the newest-4 mean and the
oldest-4 mean of that window, and floors at 0.  The `weeks_ahead` argument
(default 4 in the source) is not used by the function body. -/
def make_simple_prediction_additive (history : List ℚ) (weeks_ahead : ℕ) : Option ℚ :=
  let recent := lastN 12 history
  if recent.length < 4 then none
  else
    let predicted : ℚ :=
      if 8 ≤ recent.length then
        listMean (lastN 4 recent) +
          (listMean (lastN 4 recent) - listMean (recent.take 4)) * (1 / 2)
      else listMean (lastN 4 recent)
    some (max 0 predicted)

/-! ## Risk-tier classification -/

/-- The four ordered risk tiers returned by `classify_risk_level`
(both prediction pages use the same thresholds and ordering). -/
inductive RiskLevel
  | low
  | moderate
  | high
  | critical
deriving DecidableEq

/-- Priority of a tier in the order Low < Moderate < High < Critical. -/
def riskPriority : RiskLevel → ℕ
  | .low => 0
  | .moderate => 1
  | .high => 2
  | .critical => 3

/-- Ascending sort of the reference distribution, as performed internally by
`Series.quantile`. -/
def sortedAsc (l : List ℚ) : List ℚ := List.insertionSort (· ≤ ·) l

/-- Linear interpolation at fractional position `h` into the sorted value
list `s` (`s[floor h] + (h - floor h) * (s[ceil h] - s[floor h])`). -/
def interpSorted (s : List ℚ) (h : ℚ) : ℚ :=
  s.getD (⌊h⌋).toNat 0 + (h - (⌊h⌋ : ℚ)) * (s.getD (⌈h⌉).toNat 0 - s.getD (⌊h⌋).toNat 0)

/-- `Series.quantile(q)` with the default linear interpolation: sort the
values and interpolate at position `q * (n - 1)`. -/
def seriesQuantile (l : List ℚ) (q : ℚ) : ℚ :=
  if sortedAsc l = [] then 0
  else interpSorted (sortedAsc l) (q * ((sortedAsc l).length - 1))

/-- `classify_risk_level` of both prediction pages: strict greater-than
comparison of the value against the 90th, 75th and 50th percentile of the
historical case distribution, in that order. -/
def classify_risk_level (predicted_cases : ℚ) (historicalCases : List ℚ) : RiskLevel :=
  if seriesQuantile historicalCases (90 / 100) < predicted_cases then .critical
  else if seriesQuantile historicalCases (75 / 100) < predicted_cases then .high
  else if seriesQuantile historicalCases (50 / 100) < predicted_cases then .moderate
  else .low

/-! ## LISA cluster labelling -/

/-- The cluster label assigned to one district by `compute_lisa_for_year`
(`pages/6_🗺️LISA_Analysis.py`): the label starts as the translated
"Not Significant" and is overwritten with the quadrant label exactly when
`lisa.q` matches and `lisa.p_sim < 0.05`.  The threshold `0.05` is written
literally in the source (`sig_mask = lisa.p_sim < 0.05`); the function has
no significance-level parameter.  English label strings are used. -/
def lisaClusterLabel (quadrant : ℕ) (p_sim : ℚ) : String :=
  if p_sim < 5 / 100 ∧ quadrant = 1 then "High-High"
  else if p_sim < 5 / 100 ∧ quadrant = 2 then "Low-High"
  else if p_sim < 5 / 100 ∧ quadrant = 3 then "Low-Low"
  else if p_sim < 5 / 100 ∧ quadrant = 4 then "High-Low"
  else "Not Significant"

/-- Total cases of one district in one year
(`df[df.data_year == year].groupby('district_clean').cases.sum()`,
with the left join onto the geometry filling absent districts with 0). -/
def districtCasesForYear (df : List SurveillanceRecord) (year : Int)
    (district : String) : ℚ :=
  ((df.filter (fun r => decide (r.data_year = year ∧ r.district = district))).map
    (fun r => r.cases)).sum

/-- `compute_lisa_for_year` (`pages/6_🗺️LISA_Analysis.py`), with the external
statistic `Moran_Local` abstracted as a parameter `moran` that returns one
(quadrant, p_sim) pair per district.  The function aggregates the cases of
the selected year per geometry district, returns `None` when the merged case
vector sums to zero, and otherwise labels every district through the
quadrant/p-value rule of `lisaClusterLabel`. -/
def compute_lisa_for_year (moran : List ℚ → List (ℕ × ℚ))
    (df : List SurveillanceRecord) (geoDistricts : List String) (year : Int) :
    Option (List (String × String)) :=
  let y := geoDistricts.map (districtCasesForYear df year)
  if y.sum = 0 then none
  else some (geoDistricts.zip ((moran y).map (fun qp => lisaClusterLabel qp.1 qp.2)))

/-! ## Export file names -/

/-- The download file name built in `main` of
`pages/5_Data_Explorer_BILINGUAL.py`:
`f"meningitis_filtered_\x7bdatetime.now().strftime(...)\x7d_\x7blang\x7d.csv"`.
The render context (current filter selection, current time, language) is the
input; the f-string uses only the time and the language. -/
def explorer_export_filename (selectedYears : List Int) (selectedRegions : List String)
    (now : String) (lang : String) : String :=
  "meningitis_filtered_" ++ now ++ "_" ++ lang ++ ".csv"

/-- The download file name built in `main` of `pages/6_🗺️LISA_Analysis.py`:
`f"lisa_clusters_\x7byear\x7d_\x7blang\x7d.csv"`.  The render context
(selected year, language, current time) is the input; the f-string uses only
the year and the language. -/
def lisa_export_filename (year : Int) (lang : String) (now : String) : String :=
  "lisa_clusters_" ++ toString year ++ "_" ++ lang ++ ".csv"

/-- A concrete surveillance record used by witnesses. -/
def sampleRecord : SurveillanceRecord :=
  ⟨"Nord", "DistrictA", 2020, 1, 10, 2, 50000⟩

/-- A concrete record with a death but no case (the data model does not
enforce `deaths ≤ cases`). -/
def deathOnlyRecord : SurveillanceRecord :=
  ⟨"Nord", "DistrictA", 2020, 1, 0, 1, 50000⟩

/-! ## Theorems -/

/-- C1 counterexample: for the 8-observation history [5,5,5,5,50,50,50,50]
and horizon 1 week, neither implementation of `make_simple_prediction`
returns 500.  The BILINGUAL page rejects any history shorter than 12
observations, and the additive page computes 50 + 0.5 × (50 − 5) = 72.5. -/
theorem forecast_scenario_counterexample :
    make_simple_prediction_bilingual [5, 5, 5, 5, 50, 50, 50, 50] 1 ≠ some 500 ∧
    make_simple_prediction_additive [5, 5, 5, 5, 50, 50, 50, 50] 1 ≠ some 500 := by
  constructor
  · have hb : make_simple_prediction_bilingual [5, 5, 5, 5, 50, 50, 50, 50] 1 = none := rfl
    rw [hb]
    exact fun h => Option.noConfusion h
  · have ha : make_simple_prediction_additive [5, 5, 5, 5, 50, 50, 50, 50] 1 =
        some (145 / 2) := by
      unfold make_simple_prediction_additive
      norm_num [lastN, listMean]
    rw [ha]
    intro h
    have h2 := Option.some.inj h
    norm_num at h2

/-- C1 amended: for the history [5,5,5,5,50,50,50,50] and horizon 1, the
BILINGUAL `make_simple_prediction` returns no prediction (it requires at
least 12 observations), and the `make_simple_prediction` of
`4_🎯_Predictions.py` returns 72.5 = 50 + 0.5 × (50 − 5). -/
theorem forecast_scenario_amended :
    make_simple_prediction_bilingual [5, 5, 5, 5, 50, 50, 50, 50] 1 = none ∧
    make_simple_prediction_additive [5, 5, 5, 5, 50, 50, 50, 50] 1 = some (145 / 2) := by
  constructor
  · rfl
  · unfold make_simple_prediction_additive
    norm_num [lastN, listMean]

/-- C2 counterexample: the history [1,1,1,1] has exactly 4 observations,
yet the BILINGUAL `make_simple_prediction` returns no prediction,
refuting that every history with at least 4 observations gets a numeric
prediction. -/
theorem forecast_insufficient_data_counterexample :
    ([(1 : ℚ), 1, 1, 1].length = 4) ∧
    make_simple_prediction_bilingual [1, 1, 1, 1] 1 = none :=
  ⟨rfl, rfl⟩

/-- The additive forecast is undefined exactly below the 4-observation
cutoff (helper shared by several theorems). -/
theorem additive_none_iff (history : List ℚ) (w : ℕ) :
    make_simple_prediction_additive history w = none ↔ history.length < 4 := by
  have hlen : (lastN 12 history).length = history.length - (history.length - 12) := by
    simp [lastN]
  by_cases h : (lastN 12 history).length < 4
  · simp only [make_simple_prediction_additive, if_pos h, true_iff]
    omega
  · simp only [make_simple_prediction_additive, if_neg h]
    simp only [hlen] at h
    constructor
    · intro hc
      exact Option.noConfusion hc
    · intro hc
      omega

/-- The BILINGUAL forecast is undefined exactly below the 12-observation
cutoff (helper shared by several theorems). -/
theorem bilingual_none_iff (history : List ℚ) (w : ℕ) :
    make_simple_prediction_bilingual history w = none ↔ history.length < 12 := by
  by_cases h : history.length < 12
  · simp [make_simple_prediction_bilingual, h]
  · simp [make_simple_prediction_bilingual, h]

/-- C2 amended: the additive `make_simple_prediction`
(`4_🎯_Predictions.py`) returns no prediction exactly when the district has
fewer than 4 observations, while the BILINGUAL one returns no prediction
exactly when it has fewer than 12 observations; above the respective cutoff
each returns a numeric prediction. -/
theorem forecast_insufficient_data_amended (history : List ℚ) (w : ℕ) :
    (make_simple_prediction_additive history w = none ↔ history.length < 4) ∧
    (make_simple_prediction_bilingual history w = none ↔ history.length < 12) :=
  ⟨additive_none_iff history w, bilingual_none_iff history w⟩

/-- C3 (code bug): `compute_lisa_for_year` hard-codes the significance
threshold 0.05 (`sig_mask = lisa.p_sim < 0.05`) and never receives the
user-chosen α.  At the failing input α = 0.01 with a quadrant-1 district of
permutation p-value 0.02, the code labels the district High-High even though
0.02 ≥ α; the second conjunct shows the hard-coded 0.05 boundary in action. -/
theorem lisa_alpha_hardcoded :
    lisaClusterLabel 1 (2 / 100) = "High-High" ∧
    lisaClusterLabel 1 (6 / 100) = "Not Significant" ∧
    ("High-High" : String) ≠ "Not Significant" := by
  refine ⟨?_, ?_, by decide⟩
  · unfold lisaClusterLabel
    norm_num
  · unfold lisaClusterLabel
    norm_num

/-- C8: when every geometry district has a zero case total for the selected
year, `compute_lisa_for_year` returns `None` (the year is skipped), for any
behaviour of the external `Moran_Local` statistic. -/
theorem lisa_skip_all_zero (moran : List ℚ → List (ℕ × ℚ))
    (df : List SurveillanceRecord) (geoDistricts : List String) (year : Int)
    (hz : ∀ d ∈ geoDistricts, districtCasesForYear df year d = 0) :
    compute_lisa_for_year moran df geoDistricts year = none := by
  unfold compute_lisa_for_year
  have hsum : (geoDistricts.map (districtCasesForYear df year)).sum = 0 := by
    apply List.sum_eq_zero
    intro x hx
    rcases List.mem_map.mp hx with ⟨d, hd, rfl⟩
    exact hz d hd
  simp [hsum]

/-- C8 witness: a concrete all-zero year (empty record set, one geometry
district) is skipped. -/
theorem lisa_skip_all_zero_witness :
    (∀ d ∈ ["DistrictA"], districtCasesForYear [] 2020 d = 0) ∧
    compute_lisa_for_year (fun _ => []) [] ["DistrictA"] 2020 = none :=
  ⟨fun _ _ => rfl, lisa_skip_all_zero (fun _ => []) [] ["DistrictA"] 2020 (fun _ _ => rfl)⟩

/-- C9 counterexample: two exports of the same LISA result at two different
times produce the identical file name — the LISA file name embeds no
timestamp. -/
theorem export_filename_counterexample :
    lisa_export_filename 2020 "en" "20260101_0000" =
      lisa_export_filename 2020 "en" "20260101_0130" ∧
    ("20260101_0000" : String) ≠ "20260101_0130" :=
  ⟨rfl, by decide⟩

/-- C9 amended: the Data-Explorer export file name embeds the timestamp and
the language but not the filter state (any two filter selections at the same
time yield the same name), and the LISA export file name embeds the selected
year and the language but no timestamp (any two export times yield the same
name). -/
theorem export_filename_amended :
    (∀ (y₁ y₂ : List Int) (r₁ r₂ : List String) (t l : String),
      explorer_export_filename y₁ r₁ t l = explorer_export_filename y₂ r₂ t l) ∧
    (∀ (year : Int) (l t₁ t₂ : String),
      lisa_export_filename year l t₁ = lisa_export_filename year l t₂) ∧
    (∀ (y : List Int) (r : List String),
      explorer_export_filename y r "20260101_0000" "en" ≠
        explorer_export_filename y r "20260101_0130" "en") ∧
    (∀ t : String, lisa_export_filename 2020 "en" t ≠ lisa_export_filename 2021 "en" t) := by
  refine ⟨fun _ _ _ _ _ _ => rfl, fun _ _ _ _ => rfl, fun _ _ => ?_, fun _ => ?_⟩
  · unfold explorer_export_filename
    decide
  · unfold lisa_export_filename
    decide

/-- C10 counterexample: on the 4-observation history [1,1,1,1] (horizon 4,
the default of the additive page) the additive `make_simple_prediction`
returns 1 while the BILINGUAL one returns no prediction, so the two
implementations are not equivalent. -/
theorem forecast_equivalence_counterexample :
    ¬ ((make_simple_prediction_additive [1, 1, 1, 1] 4).map (fun x : ℚ => (x : ℝ)) =
      make_simple_prediction_bilingual [1, 1, 1, 1] 4) := by
  have ha : make_simple_prediction_additive [1, 1, 1, 1] 4 = some 1 := by
    unfold make_simple_prediction_additive
    norm_num [lastN, listMean]
  have hb : make_simple_prediction_bilingual [1, 1, 1, 1] 4 = none := rfl
  rw [ha, hb]
  intro h
  exact Option.noConfusion h

/-- C10 amended: the two implementations do not return the same prediction
in general; they do agree on histories with fewer than 4 observations, where
both return no prediction. -/
theorem forecast_equivalence_amended (history : List ℚ) (w₁ w₂ : ℕ)
    (h : history.length < 4) :
    make_simple_prediction_additive history w₁ = none ∧
    make_simple_prediction_bilingual history w₂ = none := by
  constructor
  · exact (additive_none_iff history w₁).mpr h
  · exact (bilingual_none_iff history w₂).mpr (by omega)

/-- C10 witness: the empty history is below both cutoffs. -/
theorem forecast_equivalence_amended_witness :
    ([] : List ℚ).length < 4 ∧
    (make_simple_prediction_additive [] 1 = none ∧
      make_simple_prediction_bilingual [] 1 = none) :=
  ⟨by decide, forecast_equivalence_amended [] 1 1 (by decide)⟩

/-- Records selected by `yearRecords` come from the input table (helper). -/
theorem mem_of_mem_yearRecords {df : List SurveillanceRecord} {selectedYears : List Int}
    {selectedRegions : List String} {y : Int} {r : SurveillanceRecord}
    (h : r ∈ yearRecords df selectedYears selectedRegions y) : r ∈ df :=
  List.mem_of_mem_filter (List.mem_of_mem_filter h)

/-- Records selected by `filterRecords` come from the input table (helper). -/
theorem mem_of_mem_filterRecords {df : List SurveillanceRecord} {selectedYears : List Int}
    {selectedRegions : List String} {r : SurveillanceRecord}
    (h : r ∈ filterRecords df selectedYears selectedRegions) : r ∈ df :=
  List.mem_of_mem_filter h

/-- A ratio of a lower nonnegative sum over a positive sum, times 100, lies
in [0, 100] (helper). -/
theorem cfr_bounds {d c : ℚ} (hd : 0 ≤ d) (hdc : d ≤ c) (hc : 0 < c) :
    0 ≤ d / c * 100 ∧ d / c * 100 ≤ 100 := by
  constructor
  · positivity
  · have h1 : d / c ≤ 1 := (div_le_one hc).mpr hdc
    nlinarith

/-- C4 counterexample: a record set holding a single record with one death
and zero cases (the system tolerates `deaths > cases`) makes the cases sum
of year 2020 zero, yet the per-year CFR of `get_temporal_data` is not 0: the
float division yields infinity, which `.fillna(0)` does not replace
(modelled as `none`). -/
theorem cfr_inf_counterexample :
    yearCases [deathOnlyRecord] [2020] ["Nord"] 2020 = 0 ∧
    temporalCfrForYear [deathOnlyRecord] [2020] ["Nord"] 2020 = none ∧
    (none : Option ℚ) ≠ some 0 := by
  have hrec : yearRecords [deathOnlyRecord] [2020] ["Nord"] 2020 = [deathOnlyRecord] := rfl
  have hc : yearCases [deathOnlyRecord] [2020] ["Nord"] 2020 = 0 := by
    rw [yearCases, hrec]
    simp [deathOnlyRecord]
  have hd : yearDeaths [deathOnlyRecord] [2020] ["Nord"] 2020 = 1 := by
    rw [yearDeaths, hrec]
    simp [deathOnlyRecord]
  refine ⟨hc, ?_, by simp⟩
  rw [temporalCfrForYear, hc, hd, yearlyCfr]
  norm_num

/-- C4 amended: the overview CFR of `compute_kpis` equals
deaths_sum / cases_sum × 100 when cases_sum > 0 and is exactly 0 when
cases_sum = 0; under the data-model invariant 0 ≤ deaths ≤ cases per record
it lies in [0, 100].  The per-year CFR of `get_temporal_data` is a finite
value in [0, 100] under the same invariant, and is exactly 0 for a year with
zero cases (its deaths sum is then forced to 0, so the 0/0 NaN is filled
with 0); without the invariant, a year with deaths but no cases yields
infinity rather than 0 (see the counterexample). -/
theorem cfr_amended (df : List SurveillanceRecord) (selectedYears : List Int)
    (selectedRegions : List String)
    (hdc : ∀ r ∈ df, 0 ≤ r.deaths ∧ r.deaths ≤ r.cases) :
    (totalCases df selectedYears selectedRegions = 0 →
      overall_cfr df selectedYears selectedRegions = 0) ∧
    (0 ≤ overall_cfr df selectedYears selectedRegions ∧
      overall_cfr df selectedYears selectedRegions ≤ 100) ∧
    (∀ y : Int, yearCases df selectedYears selectedRegions y = 0 →
      temporalCfrForYear df selectedYears selectedRegions y = some 0) ∧
    (∀ y : Int, ∃ v : ℚ, temporalCfrForYear df selectedYears selectedRegions y = some v ∧
      0 ≤ v ∧ v ≤ 100) := by
  have hd0 : 0 ≤ totalDeaths df selectedYears selectedRegions := by
    apply List.sum_nonneg
    intro x hx
    rcases List.mem_map.mp hx with ⟨r, hr, rfl⟩
    exact (hdc r (mem_of_mem_filterRecords hr)).1
  have hdlec : totalDeaths df selectedYears selectedRegions ≤
      totalCases df selectedYears selectedRegions := by
    apply List.sum_le_sum
    intro r hr
    exact (hdc r (mem_of_mem_filterRecords hr)).2
  have hy0 : ∀ y : Int, 0 ≤ yearDeaths df selectedYears selectedRegions y := by
    intro y
    apply List.sum_nonneg
    intro x hx
    rcases List.mem_map.mp hx with ⟨r, hr, rfl⟩
    exact (hdc r (mem_of_mem_yearRecords hr)).1
  have hylec : ∀ y : Int, yearDeaths df selectedYears selectedRegions y ≤
      yearCases df selectedYears selectedRegions y := by
    intro y
    apply List.sum_le_sum
    intro r hr
    exact (hdc r (mem_of_mem_yearRecords hr)).2
  refine ⟨?_, ?_, ?_, ?_⟩
  · intro h0
    rw [overall_cfr, h0]
    norm_num
  · rw [overall_cfr]
    by_cases h : 0 < totalCases df selectedYears selectedRegions
    · rw [if_pos h]
      exact cfr_bounds hd0 hdlec h
    · rw [if_neg h]
      norm_num
  · intro y h0
    have hdz : yearDeaths df selectedYears selectedRegions y = 0 :=
      le_antisymm (h0 ▸ hylec y) (hy0 y)
    rw [temporalCfrForYear, h0, hdz, yearlyCfr]
    norm_num
  · intro y
    by_cases h0 : yearCases df selectedYears selectedRegions y = 0
    · refine ⟨0, ?_, le_refl 0, by norm_num⟩
      have hdz : yearDeaths df selectedYears selectedRegions y = 0 :=
        le_antisymm (h0 ▸ hylec y) (hy0 y)
      rw [temporalCfrForYear, h0, hdz, yearlyCfr]
      norm_num
    · have hcpos : 0 < yearCases df selectedYears selectedRegions y := by
        have hcnn : 0 ≤ yearCases df selectedYears selectedRegions y :=
          le_trans (hy0 y) (hylec y)
        exact lt_of_le_of_ne hcnn (Ne.symm h0)
      refine ⟨yearDeaths df selectedYears selectedRegions y /
        yearCases df selectedYears selectedRegions y * 100, ?_, ?_, ?_⟩
      · rw [temporalCfrForYear, yearlyCfr, if_neg h0]
      · exact (cfr_bounds (hy0 y) (hylec y) hcpos).1
      · exact (cfr_bounds (hy0 y) (hylec y) hcpos).2

/-- C4 witness: a concrete table with 10 cases and 2 deaths in year 2020. -/
theorem cfr_amended_witness :
    (∀ r ∈ [sampleRecord], 0 ≤ r.deaths ∧ r.deaths ≤ r.cases) ∧
    ((totalCases [sampleRecord] [2020] ["Nord"] = 0 →
      overall_cfr [sampleRecord] [2020] ["Nord"] = 0) ∧
    (0 ≤ overall_cfr [sampleRecord] [2020] ["Nord"] ∧
      overall_cfr [sampleRecord] [2020] ["Nord"] ≤ 100) ∧
    (∀ y : Int, yearCases [sampleRecord] [2020] ["Nord"] y = 0 →
      temporalCfrForYear [sampleRecord] [2020] ["Nord"] y = some 0) ∧
    (∀ y : Int, ∃ v : ℚ, temporalCfrForYear [sampleRecord] [2020] ["Nord"] y = some v ∧
      0 ≤ v ∧ v ≤ 100)) := by
  have hinv : ∀ r ∈ [sampleRecord], 0 ≤ r.deaths ∧ r.deaths ≤ r.cases := by
    intro r hr
    rcases List.mem_singleton.mp hr with rfl
    constructor <;> norm_num [sampleRecord]
  exact ⟨hinv, cfr_amended [sampleRecord] [2020] ["Nord"] hinv⟩

/-- Splitting off the head record splits one regional sum (helper). -/
theorem regionCases_cons (r : SurveillanceRecord) (t : List SurveillanceRecord) (g : String) :
    regionCases (r :: t) g =
      if r.region = g then r.cases + regionCases t g else regionCases t g := by
  unfold regionCases
  by_cases h : r.region = g
  · simp [List.filter_cons, h]
  · simp [List.filter_cons, h]

/-- Adding `x` to the summand of one key of a duplicate-free key list adds
`x` to the total (helper). -/
theorem sum_map_add_single {gs : List String} (hnd : gs.Nodup) {a : String} (ha : a ∈ gs)
    (x : ℚ) (f : String → ℚ) :
    (gs.map (fun g => if a = g then x + f g else f g)).sum = x + (gs.map f).sum := by
  induction gs with
  | nil => cases ha
  | cons g t ih =>
    rcases List.mem_cons.mp ha with rfl | hat
    · have hgt : a ∉ t := (List.nodup_cons.mp hnd).1
      simp only [List.map_cons, List.sum_cons]
      have hmap : t.map (fun g => if a = g then x + f g else f g) = t.map f := by
        apply List.map_congr_left
        intro b hb
        rw [if_neg]
        intro hab
        exact hgt (hab ▸ hb)
      simp only [if_true]
      rw [hmap]
      ring
    · have hag : a ≠ g := by
        rintro rfl
        exact (List.nodup_cons.mp hnd).1 hat
      simp only [List.map_cons, List.sum_cons, if_neg hag]
      rw [ih (List.nodup_cons.mp hnd).2 hat]
      ring

/-- Summing the per-region case sums over any duplicate-free list of keys
covering all regions of the table gives the table's case sum (helper). -/
theorem sum_regionCases (fl : List SurveillanceRecord) (gs : List String) (hnd : gs.Nodup)
    (hcov : ∀ r ∈ fl, r.region ∈ gs) :
    (gs.map (regionCases fl)).sum = (fl.map (fun r => r.cases)).sum := by
  induction fl with
  | nil =>
    have h : gs.map (regionCases []) = gs.map (fun _ => (0 : ℚ)) :=
      List.map_congr_left (fun g _ => by simp [regionCases])
    rw [h]
    simp [List.map_const', List.sum_replicate]
  | cons r t ih =>
    have hcovt : ∀ x ∈ t, x.region ∈ gs := fun x hx => hcov x (List.mem_cons_of_mem _ hx)
    have hr : r.region ∈ gs := hcov r (List.mem_cons_self _ _)
    have hmap : gs.map (regionCases (r :: t)) =
        gs.map (fun g => if r.region = g then r.cases + regionCases t g else regionCases t g) :=
      List.map_congr_left (fun g _ => regionCases_cons r t g)
    rw [hmap, sum_map_add_single hnd hr r.cases (regionCases t), ih hcovt]
    simp

/-- C7: for every filter selection, the per-region case totals of
`get_regional_data` sum to the `total_cases` of `compute_kpis` over the same
filtered record set — no double counting, no loss. -/
theorem regional_sum_consistency (df : List SurveillanceRecord) (selectedYears : List Int)
    (selectedRegions : List String) :
    ((regionalData df selectedYears selectedRegions).map Prod.snd).sum =
      totalCases df selectedYears selectedRegions := by
  unfold regionalData totalCases
  rw [List.map_map]
  have hcomp : (Prod.snd ∘ fun g =>
      (g, regionCases (filterRecords df selectedYears selectedRegions) g)) =
      regionCases (filterRecords df selectedYears selectedRegions) := rfl
  rw [hcomp]
  exact sum_regionCases _ _ (List.nodup_dedup _)
    (fun r hr => List.mem_dedup.mpr (List.mem_map_of_mem _ hr))

/-- The sort used by `seriesQuantile` is sorted (helper). -/
theorem sortedAsc_sorted (l : List ℚ) : List.Sorted (· ≤ ·) (sortedAsc l) :=
  List.sorted_insertionSort _ l

/-- Reading a sorted list at a lower index gives a lower value (helper). -/
theorem getD_le_getD_of_sorted {s : List ℚ} (hs : List.Sorted (· ≤ ·) s)
    {i j : ℕ} (hij : i ≤ j) (hj : j < s.length) : s.getD i 0 ≤ s.getD j 0 := by
  have hi : i < s.length := lt_of_le_of_lt hij hj
  rw [List.getD_eq_getElem s 0 hi, List.getD_eq_getElem s 0 hj]
  rcases eq_or_lt_of_le hij with rfl | hlt
  · exact le_refl _
  · have h := List.pairwise_iff_get.mp hs ⟨i, hi⟩ ⟨j, hj⟩ hlt
    simpa using h

/-- Linear interpolation into a sorted list is monotone in the position
(helper for the percentile ordering). -/
theorem interpSorted_mono {s : List ℚ} (hs : List.Sorted (· ≤ ·) s)
    {a b : ℚ} (ha : 0 ≤ a) (hab : a ≤ b) (hb : b ≤ (s.length : ℚ) - 1) :
    interpSorted s a ≤ interpSorted s b := by
  have hn : 1 ≤ s.length := by
    have h1 : (1 : ℚ) ≤ (s.length : ℚ) := by linarith
    exact_mod_cast h1
  have hb0 : 0 ≤ b := le_trans ha hab
  have hfa0 : 0 ≤ ⌊a⌋ := Int.floor_nonneg.mpr ha
  have hfb0 : 0 ≤ ⌊b⌋ := Int.floor_nonneg.mpr hb0
  have hca0 : 0 ≤ ⌈a⌉ := Int.ceil_nonneg ha
  have hcb0 : 0 ≤ ⌈b⌉ := Int.ceil_nonneg hb0
  have hfab : ⌊a⌋ ≤ ⌊b⌋ := Int.floor_le_floor hab
  have hfca : ⌊a⌋ ≤ ⌈a⌉ := Int.floor_le_ceil a
  have hfcb : ⌊b⌋ ≤ ⌈b⌉ := Int.floor_le_ceil b
  have hcfa : ⌈a⌉ ≤ ⌊a⌋ + 1 := Int.ceil_le_floor_add_one a
  have hcbn : ⌈b⌉ ≤ (s.length : ℤ) - 1 := by
    rw [Int.ceil_le]
    push_cast
    linarith
  have hca_lt : (⌈a⌉).toNat < s.length := by
    have hcab : ⌈a⌉ ≤ ⌈b⌉ := Int.ceil_le_ceil hab
    omega
  have hla_lt : (⌊a⌋).toNat < s.length := by omega
  have hlb_lt : (⌊b⌋).toNat < s.length := by omega
  have hcb_lt : (⌈b⌉).toNat < s.length := by omega
  have hABa : s.getD (⌊a⌋).toNat 0 ≤ s.getD (⌈a⌉).toNat 0 :=
    getD_le_getD_of_sorted hs (by omega) hca_lt
  have hABb : s.getD (⌊b⌋).toNat 0 ≤ s.getD (⌈b⌉).toNat 0 :=
    getD_le_getD_of_sorted hs (by omega) hcb_lt
  have hfra0 : 0 ≤ a - (⌊a⌋ : ℚ) := sub_nonneg.mpr (Int.floor_le a)
  have hfrb0 : 0 ≤ b - (⌊b⌋ : ℚ) := sub_nonneg.mpr (Int.floor_le b)
  have hfra1 : a - (⌊a⌋ : ℚ) ≤ 1 := by
    have h := Int.lt_floor_add_one a
    push_cast at h
    linarith
  rcases eq_or_lt_of_le hfab with heq | hlt
  · -- same floor segment
    have hkab : ((⌊a⌋ : ℤ) : ℚ) = ((⌊b⌋ : ℤ) : ℚ) := by rw [heq]
    rcases eq_or_lt_of_le (Int.floor_le a) with haeq | halt
    · -- a sits exactly on the lower grid point
      unfold interpSorted
      rw [heq]
      have hz : a - ((⌊b⌋ : ℤ) : ℚ) = 0 := by linarith
      rw [hz, zero_mul, add_zero]
      have hmul : 0 ≤ (b - (⌊b⌋ : ℚ)) * (s.getD (⌈b⌉).toNat 0 - s.getD (⌊b⌋).toNat 0) :=
        mul_nonneg hfrb0 (sub_nonneg.mpr hABb)
      linarith
    · -- a lies strictly inside the segment, so both ceilings are floor + 1
      have hceila : ⌈a⌉ = ⌊a⌋ + 1 := by
        rw [Int.ceil_eq_iff]
        constructor
        · push_cast
          linarith
        · have h := Int.lt_floor_add_one a
          push_cast at h ⊢
          linarith
      have hceilb : ⌈b⌉ = ⌊b⌋ + 1 := by
        rw [Int.ceil_eq_iff]
        constructor
        · push_cast
          linarith
        · have h := Int.lt_floor_add_one b
          push_cast at h ⊢
          linarith
      have hAB : s.getD (⌊b⌋).toNat 0 ≤ s.getD ((⌊b⌋ + 1)).toNat 0 := by
        apply getD_le_getD_of_sorted hs (by omega)
        omega
      unfold interpSorted
      rw [hceila, hceilb, heq]
      have hmul : (a - ((⌊b⌋ : ℤ) : ℚ)) * (s.getD ((⌊b⌋ + 1)).toNat 0 - s.getD (⌊b⌋).toNat 0) ≤
          (b - ((⌊b⌋ : ℤ) : ℚ)) * (s.getD ((⌊b⌋ + 1)).toNat 0 - s.getD (⌊b⌋).toNat 0) :=
        mul_le_mul_of_nonneg_right (by linarith) (sub_nonneg.mpr hAB)
      linarith
  · -- the positions lie in different segments
    have h1 : interpSorted s a ≤ s.getD (⌈a⌉).toNat 0 := by
      unfold interpSorted
      have hmul : (a - (⌊a⌋ : ℚ)) * (s.getD (⌈a⌉).toNat 0 - s.getD (⌊a⌋).toNat 0) ≤
          1 * (s.getD (⌈a⌉).toNat 0 - s.getD (⌊a⌋).toNat 0) :=
        mul_le_mul_of_nonneg_right hfra1 (sub_nonneg.mpr hABa)
      linarith
    have h2 : s.getD (⌈a⌉).toNat 0 ≤ s.getD (⌊b⌋).toNat 0 :=
      getD_le_getD_of_sorted hs (by omega) hlb_lt
    have h3 : s.getD (⌊b⌋).toNat 0 ≤ interpSorted s b := by
      unfold interpSorted
      have hmul : 0 ≤ (b - (⌊b⌋ : ℚ)) * (s.getD (⌈b⌉).toNat 0 - s.getD (⌊b⌋).toNat 0) :=
        mul_nonneg hfrb0 (sub_nonneg.mpr hABb)
      linarith
    linarith

/-- `Series.quantile` is monotone in the quantile level (helper: the 50th,
75th and 90th percentiles of one distribution are ordered). -/
theorem seriesQuantile_mono (l : List ℚ) {q₁ q₂ : ℚ} (h0 : 0 ≤ q₁) (h12 : q₁ ≤ q₂)
    (h1 : q₂ ≤ 1) : seriesQuantile l q₁ ≤ seriesQuantile l q₂ := by
  unfold seriesQuantile
  by_cases hnil : sortedAsc l = []
  · rw [if_pos hnil, if_pos hnil]
  · rw [if_neg hnil, if_neg hnil]
    have hlen : 1 ≤ (sortedAsc l).length := List.length_pos.mpr hnil
    have hnn : (0 : ℚ) ≤ ((sortedAsc l).length : ℚ) - 1 := by
      have h1q : (1 : ℚ) ≤ ((sortedAsc l).length : ℚ) := by exact_mod_cast hlen
      linarith
    apply interpSorted_mono (sortedAsc_sorted l)
    · exact mul_nonneg h0 hnn
    · exact mul_le_mul_of_nonneg_right h12 hnn
    · calc q₂ * (((sortedAsc l).length : ℚ) - 1)
          ≤ 1 * (((sortedAsc l).length : ℚ) - 1) := mul_le_mul_of_nonneg_right h1 hnn
        _ = ((sortedAsc l).length : ℚ) - 1 := one_mul _

/-- C5: risk-tier boundaries are strict.  For every nonempty reference
distribution, a value exactly equal to the 75th percentile is not classified
High (nor Critical) — it lands in the tier below; a value exactly equal to
the 90th percentile is not classified Critical; and a value exactly equal to
the 50th percentile is classified Low. -/
theorem risk_tier_strict_boundary (historicalCases : List ℚ) (hne : historicalCases ≠ []) :
    classify_risk_level (seriesQuantile historicalCases (75 / 100)) historicalCases ≠
      RiskLevel.high ∧
    classify_risk_level (seriesQuantile historicalCases (75 / 100)) historicalCases ≠
      RiskLevel.critical ∧
    classify_risk_level (seriesQuantile historicalCases (90 / 100)) historicalCases ≠
      RiskLevel.critical ∧
    classify_risk_level (seriesQuantile historicalCases (50 / 100)) historicalCases =
      RiskLevel.low := by
  have h57 : seriesQuantile historicalCases (50 / 100) ≤
      seriesQuantile historicalCases (75 / 100) :=
    seriesQuantile_mono historicalCases (by norm_num) (by norm_num) (by norm_num)
  have h79 : seriesQuantile historicalCases (75 / 100) ≤
      seriesQuantile historicalCases (90 / 100) :=
    seriesQuantile_mono historicalCases (by norm_num) (by norm_num) (by norm_num)
  refine ⟨?_, ?_, ?_, ?_⟩
  · unfold classify_risk_level
    rw [if_neg (not_lt.mpr h79), if_neg (lt_irrefl _)]
    split_ifs
    · intro h
      exact RiskLevel.noConfusion h
    · intro h
      exact RiskLevel.noConfusion h
  · unfold classify_risk_level
    rw [if_neg (not_lt.mpr h79), if_neg (lt_irrefl _)]
    split_ifs
    · intro h
      exact RiskLevel.noConfusion h
    · intro h
      exact RiskLevel.noConfusion h
  · unfold classify_risk_level
    rw [if_neg (lt_irrefl _)]
    split_ifs
    · intro h
      exact RiskLevel.noConfusion h
    · intro h
      exact RiskLevel.noConfusion h
    · intro h
      exact RiskLevel.noConfusion h
  · unfold classify_risk_level
    rw [if_neg (not_lt.mpr (le_trans h57 h79)), if_neg (not_lt.mpr h57),
      if_neg (lt_irrefl _)]

/-- C5 witness: the five-value distribution of the spec scenario.  Its 75th
percentile is 80, and the value 80 is classified Moderate, the tier below
High. -/
theorem risk_tier_strict_boundary_witness :
    ([100, 80, 50, 20, 5] : List ℚ) ≠ [] ∧
    (classify_risk_level (seriesQuantile [100, 80, 50, 20, 5] (75 / 100))
        [100, 80, 50, 20, 5] ≠ RiskLevel.high ∧
      classify_risk_level (seriesQuantile [100, 80, 50, 20, 5] (75 / 100))
        [100, 80, 50, 20, 5] ≠ RiskLevel.critical ∧
      classify_risk_level (seriesQuantile [100, 80, 50, 20, 5] (90 / 100))
        [100, 80, 50, 20, 5] ≠ RiskLevel.critical ∧
      classify_risk_level (seriesQuantile [100, 80, 50, 20, 5] (50 / 100))
        [100, 80, 50, 20, 5] = RiskLevel.low) :=
  ⟨by simp, risk_tier_strict_boundary [100, 80, 50, 20, 5] (by simp)⟩

/-- C6: for a fixed reference distribution, `classify_risk_level` is
monotone in the value: a larger value never gets a strictly lower-priority
tier (Low < Moderate < High < Critical). -/
theorem risk_tier_monotone (historicalCases : List ℚ) (v₁ v₂ : ℚ) (h : v₂ ≤ v₁) :
    riskPriority (classify_risk_level v₂ historicalCases) ≤
      riskPriority (classify_risk_level v₁ historicalCases) := by
  unfold classify_risk_level
  split_ifs <;> first
    | decide
    | (exfalso; linarith)

/-- C6 witness: with distribution [10, 20, 30] and values 2 ≤ 25 the
priorities are ordered. -/
theorem risk_tier_monotone_witness :
    (2 : ℚ) ≤ 25 ∧
    riskPriority (classify_risk_level 2 [10, 20, 30]) ≤
      riskPriority (classify_risk_level 25 [10, 20, 30]) :=
  ⟨by norm_num, risk_tier_monotone [10, 20, 30] 25 2 (by norm_num)⟩

end Meningitis
